import Mathlib

/-!
# Verification of the Omg chat-completion provider adapter

Shallow embedding of `crates/goose/src/providers/omg.rs`: the adapter that
serializes an agnostic conversation into the OpenAI-compatible wire format,
issues one HTTP POST, validates the status, deserializes the vendor JSON and
reconstructs the agnostic message and usage record.

The network transport is modelled as an explicit function from the request
body to an HTTP response; JSON text parsing (done by an external library in
the source) is modelled by carrying the parse result in the response, while
the typed extraction performed by the derived deserializers of `omg.rs`
(`ChatResponse`, `Choice`, `ChatMessage`, `ApiUsage`) is embedded explicitly.
A Rust index-out-of-bounds is a distinct outcome of the embedded `complete`,
so that partiality of the indexing is visible.
-/

namespace Omg

/-- Modelled from the spec: conversation roles (`mcp_core::role::Role`),
exactly `User | Assistant` (spec section 3). -/
inductive Role where
  | user
  | assistant
deriving DecidableEq, Repr

/-- Modelled from the spec: message content parts (`crate::message::MessageContent`).
The adapter understands only the `Text` variant; every non-text variant is
collapsed into an opaque `other` constructor since the adapter never inspects
its payload (spec section 3: other variants are silently skipped). -/
inductive MessageContent where
  | text (text : String)
  | other (tag : Nat)
deriving DecidableEq, Repr

/-- `MessageContent::text` constructor used at omg.rs line 145. -/
def MessageContent.mkText (s : String) : MessageContent := MessageContent.text s

/-- Modelled from the spec: `crate::message::Message` — the three fields that
`omg.rs` reads (lines 95-109) and constructs (lines 142-148). -/
structure Message where
  role : Role
  created : Int
  content : List MessageContent
deriving DecidableEq, Repr

/-- Modelled from the spec: `Usage` — three optional integer token counters
(spec section 3: "Optional" is load-bearing). -/
structure Usage where
  prompt_tokens : Option Int
  completion_tokens : Option Int
  total_tokens : Option Int
deriving DecidableEq, Repr

/-- `Usage::new`, as called at omg.rs lines 133-137. -/
def Usage.new (p c t : Option Int) : Usage := ⟨p, c, t⟩

/-- Modelled from the spec: `Usage::default()` — the empty record with all
counters absent (spec section 4.5: default/empty usage). -/
def Usage.empty : Usage := ⟨none, none, none⟩

/-- Modelled from the spec: `ProviderUsage` pairs a resolved model name with a
`Usage` (spec section 3). -/
structure ProviderUsage where
  model : String
  usage : Usage
deriving DecidableEq, Repr

/-- `ProviderUsage::new`, as called at omg.rs line 150. -/
def ProviderUsage.new (model : String) (usage : Usage) : ProviderUsage := ⟨model, usage⟩

/-- Modelled from the spec: the `ProviderError` variants that `complete` can
produce (spec section 4.1). -/
inductive ProviderError where
  | ExecutionError (msg : String)
  | RequestFailed (msg : String)
  | UsageError (msg : String)
deriving DecidableEq, Repr

/-! ## Header construction (`create_headers`, omg.rs lines 35-47) -/

/-- Validity of a character in an HTTP header value, as enforced by
`http::HeaderValue::from_str`: every byte must be horizontal tab (9) or a
byte ≥ 32 other than DEL (127).  Each byte of a multi-byte UTF-8 character is
≥ 128 and hence always valid, and an ASCII scalar is its own single byte, so
checking scalar values is equivalent to checking bytes. -/
def validHeaderChar (c : Char) : Bool :=
  c.toNat == 9 || (32 ≤ c.toNat && c.toNat != 127) || 128 ≤ c.toNat

/-- `http::HeaderValue::from_str`: succeeds iff every character is valid. -/
def headerValueFromStr (s : String) : Option String :=
  if s.toList.all validHeaderChar then some s else none

/-- `OmgProvider::create_headers` (omg.rs lines 35-47): a static
`Content-Type: application/json` header, and an
`Authorization: Bearer <api_key>` header whose construction fails with
`ExecutionError` when the bearer string is not a valid header value. -/
def create_headers (api_key : String) : Except ProviderError (List (String × String)) :=
  match headerValueFromStr ("Bearer " ++ api_key) with
  | some v => Except.ok [("content-type", "application/json"), ("authorization", v)]
  | none => Except.error (ProviderError.ExecutionError "failed to parse header value")

/-! ## Request serialization (`complete`, omg.rs lines 84-118) -/

/-- Wire role mapping (omg.rs lines 96-99). -/
def roleToWire : Role → String
  | Role.user => "user"
  | Role.assistant => "assistant"

/-- One `{role, content}` object of the outgoing `messages` array. -/
structure ApiMessage where
  role : String
  content : String
deriving DecidableEq, Repr

/-- The inner loop of omg.rs lines 101-108: for each content part push one
object per `Text` part onto the accumulator, skip every other part. -/
def pushContents (role : String) : List MessageContent → List ApiMessage → List ApiMessage
  | [], api => api
  | MessageContent.text t :: rest, api => pushContents role rest (api ++ [⟨role, t⟩])
  | MessageContent.other _ :: rest, api => pushContents role rest api

/-- The outer loop of omg.rs lines 95-109: map the role of each message to its
wire string and push its text parts in order. -/
def pushConversation : List Message → List ApiMessage → List ApiMessage
  | [], api => api
  | m :: rest, api => pushConversation rest (pushContents (roleToWire m.role) m.content api)

/-- omg.rs lines 84-109: start from the optional system entry (pushed only
when `system` is non-empty, lines 87-92), then push the conversation. -/
def buildApiMessages (system : String) (messages : List Message) : List ApiMessage :=
  pushConversation messages (if system.isEmpty then [] else [⟨"system", system⟩])

/-- The JSON request body of omg.rs lines 115-118:
model name plus the assembled messages array. -/
structure RequestBody where
  model : String
  messages : List ApiMessage
deriving DecidableEq, Repr

/-! ## Response JSON and the derived deserializers (omg.rs lines 154-175) -/

/-- A JSON value (numbers restricted to integers, the only numbers the
deserialized shapes accept). -/
inductive Json where
  | null
  | bool (b : Bool)
  | num (n : Int)
  | str (s : String)
  | arr (elems : List Json)
  | obj (fields : List (String × Json))

/-- Field lookup in a JSON object (first occurrence). -/
def Json.lookupField : List (String × Json) → String → Option Json
  | [], _ => none
  | (k, v) :: rest, name => if k == name then some v else Json.lookupField rest name

/-- `ChatMessage` (omg.rs lines 165-168). -/
structure ChatMessage where
  content : String
deriving DecidableEq, Repr

/-- `Choice` (omg.rs lines 160-163). -/
structure Choice where
  message : ChatMessage
deriving DecidableEq, Repr

/-- `ApiUsage` (omg.rs lines 170-175): three REQUIRED `i32` fields. -/
structure ApiUsage where
  prompt_tokens : Int
  completion_tokens : Int
  total_tokens : Int
deriving DecidableEq, Repr

/-- `ChatResponse` (omg.rs lines 154-158): required `choices` array, optional
`usage` object. -/
structure ChatResponse where
  choices : List Choice
  usage : Option ApiUsage
deriving DecidableEq, Repr

/-- serde: deserialize a JSON value as a string. -/
def deserString : Json → Except String String
  | Json.str s => Except.ok s
  | _ => Except.error "invalid type: expected a string"

/-- serde: deserialize a JSON value as an `i32` (any integer in range). -/
def deserI32 : Json → Except String Int
  | Json.num n =>
      if -2147483648 ≤ n ∧ n ≤ 2147483647 then Except.ok n
      else Except.error "number out of range for i32"
  | _ => Except.error "invalid type: expected i32"

/-- Derived deserializer of `ChatMessage`: an object with a required string
field `content`; unknown fields are ignored (serde default). -/
def deserChatMessage : Json → Except String ChatMessage
  | Json.obj fs =>
      match Json.lookupField fs "content" with
      | some v => (deserString v).map (fun s => ⟨s⟩)
      | none => Except.error "missing field content"
  | _ => Except.error "invalid type: expected struct ChatMessage"

/-- Derived deserializer of `Choice`: an object with a required field
`message` holding a `ChatMessage`. -/
def deserChoice : Json → Except String Choice
  | Json.obj fs =>
      match Json.lookupField fs "message" with
      | some v => (deserChatMessage v).map (fun m => ⟨m⟩)
      | none => Except.error "missing field message"
  | _ => Except.error "invalid type: expected struct Choice"

/-- serde: deserialize a JSON array elementwise (`Vec<Choice>`). -/
def deserChoices : List Json → Except String (List Choice)
  | [] => Except.ok []
  | j :: rest =>
      match deserChoice j, deserChoices rest with
      | Except.ok c, Except.ok cs => Except.ok (c :: cs)
      | Except.error e, _ => Except.error e
      | _, Except.error e => Except.error e

/-- Derived deserializer of `ApiUsage`: all three integer fields are
required; a missing field is a deserialization error. -/
def deserApiUsage : Json → Except String ApiUsage
  | Json.obj fs =>
      match Json.lookupField fs "prompt_tokens" with
      | none => Except.error "missing field prompt_tokens"
      | some pv =>
        match Json.lookupField fs "completion_tokens" with
        | none => Except.error "missing field completion_tokens"
        | some cv =>
          match Json.lookupField fs "total_tokens" with
          | none => Except.error "missing field total_tokens"
          | some tv =>
            match deserI32 pv, deserI32 cv, deserI32 tv with
            | Except.ok p, Except.ok c, Except.ok t => Except.ok ⟨p, c, t⟩
            | Except.error e, _, _ => Except.error e
            | _, Except.error e, _ => Except.error e
            | _, _, Except.error e => Except.error e
  | _ => Except.error "invalid type: expected struct ApiUsage"

/-- Derived deserializer of `ChatResponse`: required `choices` array of
`Choice`; `Option<ApiUsage>` field `usage` is `none` when missing or null;
unknown fields (for instance a vendor `model` field) are ignored. -/
def deserChatResponse : Json → Except String ChatResponse
  | Json.obj fs =>
      match Json.lookupField fs "choices" with
      | none => Except.error "missing field choices"
      | some (Json.arr elems) =>
          match deserChoices elems with
          | Except.error e => Except.error e
          | Except.ok choices =>
            match Json.lookupField fs "usage" with
            | none => Except.ok ⟨choices, none⟩
            | some Json.null => Except.ok ⟨choices, none⟩
            | some v =>
                match deserApiUsage v with
                | Except.error e => Except.error e
                | Except.ok au => Except.ok ⟨choices, some au⟩
      | some _ => Except.error "invalid type: expected a sequence for choices"
  | _ => Except.error "invalid type: expected struct ChatResponse"

/-! ## The HTTP call and `complete` (omg.rs lines 75-151) -/

/-- The observable pieces of an HTTP response that `complete` inspects: the
status code, the body as raw text (read on the error path, line 124) and the
result of parsing the body as JSON (the error path of `response.json()`,
line 129). -/
structure HttpResponse where
  status : Nat
  bodyText : String
  bodyJson : Except String Json

/-- `reqwest::StatusCode::is_success`: 2xx. -/
def statusIsSuccess (s : Nat) : Bool := 200 ≤ s && s < 300

/-- Outcome of a `complete` call.  `panicked` models a Rust runtime panic
(here: index out of bounds on `choices[0]`), which is neither a returned
value nor a `ProviderError`. -/
inductive CompleteResult where
  | ok (message : Message) (usage : ProviderUsage)
  | err (e : ProviderError)
  | panicked (msg : String)
deriving DecidableEq, Repr

/-- Usage extraction (omg.rs lines 132-140): when the deserialized response
carries a usage object, wrap its three fields in `Some` as-is; otherwise use
the default empty record.  This computation cannot fail. -/
def usageOf (chat : ChatResponse) : Usage :=
  match chat.usage with
  | some au =>
      Usage.new (some au.prompt_tokens) (some au.completion_tokens)
        (some au.total_tokens)
  | none => Usage.empty

/-- omg.rs lines 123-150: status validation, deserialization, usage
extraction and message reconstruction, given the received response.  In the
source the usage extraction (lines 132-140) precedes the `choices[0]` access
(line 146); since the extraction cannot fail, performing the empty-choices
check first is observationally identical. -/
def handle_response (model_name : String) (now : Int) (resp : HttpResponse) :
    CompleteResult :=
  if statusIsSuccess resp.status then
    match resp.bodyJson with
    | Except.error e => CompleteResult.err (ProviderError.ExecutionError e)
    | Except.ok j =>
      match deserChatResponse j with
      | Except.error e => CompleteResult.err (ProviderError.ExecutionError e)
      | Except.ok chat =>
        match chat.choices with
        | [] => CompleteResult.panicked "index out of bounds: the len is 0 but the index is 0"
        | c :: _ =>
            CompleteResult.ok
              { role := Role.assistant, created := now,
                content := [MessageContent.mkText c.message.content] }
              (ProviderUsage.new model_name (usageOf chat))
  else
    CompleteResult.err (ProviderError.RequestFailed resp.bodyText)

/-- `OmgProvider::complete` (omg.rs lines 75-151).  The transport is the
explicit `send` function from the request body to the HTTP response; `now`
is the wall-clock timestamp of line 144.  Transport-level failures of
`send()`/`text()` (also mapped to `ExecutionError` in the source) are not
modelled: `send` yields a received response. -/
def complete (api_key model_name : String) (system : String)
    (messages : List Message) (now : Int)
    (send : RequestBody → HttpResponse) : CompleteResult :=
  match create_headers api_key with
  | Except.error e => CompleteResult.err e
  | Except.ok _headers =>
      let api_messages := buildApiMessages system messages
      let resp := send { model := model_name, messages := api_messages }
      handle_response model_name now resp

/-! ## Characterization of the request serialization -/

/-- The text carried by a content part, if any. -/
def contentText : MessageContent → Option String
  | MessageContent.text t => some t
  | MessageContent.other _ => none

/-- Functional description of the wire entries a single message contributes:
one object per text part, in order, carrying the message's wire role. -/
def wireEntries (m : Message) : List ApiMessage :=
  (m.content.filterMap contentText).map (fun t => ⟨roleToWire m.role, t⟩)

lemma pushContents_eq (role : String) (cs : List MessageContent)
    (api : List ApiMessage) :
    pushContents role cs api
      = api ++ (cs.filterMap contentText).map (fun t => ⟨role, t⟩) := by
  induction cs generalizing api with
  | nil => simp [pushContents]
  | cons c rest ih =>
      cases c with
      | text t => simp [pushContents, contentText, ih]
      | other tag => simp [pushContents, contentText, ih]

lemma pushConversation_eq (ms : List Message) (api : List ApiMessage) :
    pushConversation ms api = api ++ ms.flatMap wireEntries := by
  induction ms generalizing api with
  | nil => simp [pushConversation]
  | cons m rest ih =>
      simp [pushConversation, ih, pushContents_eq, wireEntries]

lemma mem_conversation_role {ms : List Message} {e : ApiMessage}
    (h : e ∈ pushConversation ms []) :
    e.role = "user" ∨ e.role = "assistant" := by
  rw [pushConversation_eq, List.nil_append, List.mem_flatMap] at h
  obtain ⟨m, _, hm⟩ := h
  unfold wireEntries at hm
  rw [List.mem_map] at hm
  obtain ⟨t, _, rfl⟩ := hm
  cases m.role with
  | user => exact Or.inl rfl
  | assistant => exact Or.inr rfl

/-- Claim C6: the serialized message list is the optional system entry
followed by, for each message in order, one object per `Text` content part
carrying the caller-supplied text unchanged; non-text parts contribute no
object and raise no error. -/
theorem claim_c6 (system : String) (messages : List Message) :
    buildApiMessages system messages =
      (if system.isEmpty then [] else [⟨"system", system⟩]) ++
        messages.flatMap (fun m =>
          (m.content.filterMap contentText).map (fun t => ⟨roleToWire m.role, t⟩)) := by
  unfold buildApiMessages
  rw [pushConversation_eq]
  rfl

/-- Claim C7: `Role::User` maps to wire role `"user"`, `Role::Assistant` to
`"assistant"`, and every entry the conversation loop emits carries one of
those two role strings — no third value is ever emitted. -/
theorem claim_c7 :
    roleToWire Role.user = "user" ∧ roleToWire Role.assistant = "assistant" ∧
      ∀ (messages : List Message) (e : ApiMessage),
        e ∈ pushConversation messages [] →
          e.role = "user" ∨ e.role = "assistant" :=
  ⟨rfl, rfl, fun _ _ h => mem_conversation_role h⟩

/-- Witness for C7 at a concrete one-message conversation. -/
theorem claim_c7_witness :
    (⟨"user", "hi"⟩ : ApiMessage).role = "user" ∨
      (⟨"user", "hi"⟩ : ApiMessage).role = "assistant" :=
  claim_c7.2.2 [⟨Role.user, 0, [MessageContent.text "hi"]⟩] ⟨"user", "hi"⟩
    (by decide)

/-- Claim C8: an empty `system` string produces no system entry at all, and a
non-empty one produces exactly one, as the first entry of the list. -/
theorem claim_c8 (system : String) (messages : List Message) :
    (system = "" → ∀ e ∈ buildApiMessages system messages, e.role ≠ "system") ∧
    (system ≠ "" → ∃ rest,
      buildApiMessages system messages = ⟨"system", system⟩ :: rest ∧
        ∀ e ∈ rest, e.role ≠ "system") := by
  constructor
  · intro hsys e he
    subst hsys
    unfold buildApiMessages at he
    have h0 : ("" : String).isEmpty = true := rfl
    rw [if_pos h0] at he
    rcases mem_conversation_role he with h | h <;> simp [h]
  · intro hsys
    have hne : ¬ system.isEmpty := by
      simpa [String.isEmpty_iff] using hsys
    refine ⟨messages.flatMap wireEntries, ?_, ?_⟩
    · unfold buildApiMessages
      rw [if_neg hne, pushConversation_eq]
      rfl
    · intro e he
      have hmem : e ∈ pushConversation messages [] := by
        rw [pushConversation_eq, List.nil_append]
        exact he
      rcases mem_conversation_role hmem with h | h <;> simp [h]

/-- Witness for C8: both directions at concrete inputs. -/
theorem claim_c8_witness :
    (∀ e ∈ buildApiMessages "" [⟨Role.user, 0, [MessageContent.text "hi"]⟩],
        e.role ≠ "system") ∧
    (∃ rest,
      buildApiMessages "be brief" [⟨Role.user, 0, [MessageContent.text "hi"]⟩]
          = ⟨"system", "be brief"⟩ :: rest ∧ ∀ e ∈ rest, e.role ≠ "system") :=
  ⟨(claim_c8 "" _).1 rfl, (claim_c8 "be brief" _).2 (by decide)⟩

/-- Claim C9: header construction succeeds on every key whose characters are
all valid in an HTTP header value, yielding exactly the JSON content type and
the bearer authorization headers, and fails with `ExecutionError` as soon as
the key contains an invalid character. -/
theorem claim_c9 (api_key : String) :
    (api_key.toList.all validHeaderChar = true →
      create_headers api_key =
        Except.ok [("content-type", "application/json"),
          ("authorization", "Bearer " ++ api_key)]) ∧
    ((∃ c ∈ api_key.toList, validHeaderChar c = false) →
      ∃ e, create_headers api_key = Except.error (ProviderError.ExecutionError e)) := by
  have htl : ("Bearer " ++ api_key).toList = "Bearer ".toList ++ api_key.toList := by
    simp [String.toList, String.data_append]
  have hb : "Bearer ".toList.all validHeaderChar = true := by decide
  constructor
  · intro h
    unfold create_headers headerValueFromStr
    rw [htl, List.all_append, hb, h]
    rfl
  · rintro ⟨c, hc, hval⟩
    have hfalse : api_key.toList.all validHeaderChar = false := by
      by_contra hcon
      rw [Bool.not_eq_false, List.all_eq_true] at hcon
      rw [hcon c hc] at hval
      exact Bool.noConfusion hval
    refine ⟨"failed to parse header value", ?_⟩
    unfold create_headers headerValueFromStr
    rw [htl, List.all_append, hfalse]
    rfl

/-- Witness for C9: a plain key succeeds with the two expected headers; a key
containing a newline fails with `ExecutionError`. -/
theorem claim_c9_witness :
    create_headers "k" =
      Except.ok [("content-type", "application/json"),
        ("authorization", "Bearer " ++ "k")] ∧
    ∃ e, create_headers "k\nv" = Except.error (ProviderError.ExecutionError e) :=
  ⟨(claim_c9 "k").1 (by decide),
   (claim_c9 "k\nv").2 ⟨'\n', by decide, by decide⟩⟩

/-! ## Concrete transports used to exercise the response path -/

/-- JSON of one `choices` element with the given content string. -/
def mkChoiceJson (s : String) : Json :=
  Json.obj [("message", Json.obj [("content", Json.str s)])]

/-- A 2xx response, one choice with content "hello", no usage field. -/
def sendHello : RequestBody → HttpResponse := fun _ =>
  { status := 200, bodyText := "",
    bodyJson := Except.ok (Json.obj [("choices", Json.arr [mkChoiceJson "hello"])]) }

/-- A 2xx response whose body reports model "m2" alongside one choice. -/
def sendModelM2 : RequestBody → HttpResponse := fun _ =>
  { status := 200, bodyText := "",
    bodyJson := Except.ok (Json.obj
      [("model", Json.str "m2"), ("choices", Json.arr [mkChoiceJson "hi"])]) }

/-- A 2xx response whose usage object carries only `prompt_tokens`. -/
def sendPartialUsage : RequestBody → HttpResponse := fun _ =>
  { status := 200, bodyText := "",
    bodyJson := Except.ok (Json.obj
      [("choices", Json.arr [mkChoiceJson "hi"]),
       ("usage", Json.obj [("prompt_tokens", Json.num 5)])]) }

/-- A 2xx response with a complete usage object. -/
def sendFullUsage : RequestBody → HttpResponse := fun _ =>
  { status := 200, bodyText := "",
    bodyJson := Except.ok (Json.obj
      [("choices", Json.arr [mkChoiceJson "hi"]),
       ("usage", Json.obj
         [("prompt_tokens", Json.num 3), ("completion_tokens", Json.num 4),
          ("total_tokens", Json.num 7)])]) }

/-- A 2xx response whose body deserializes fine but has no choices. -/
def sendEmptyChoices : RequestBody → HttpResponse := fun _ =>
  { status := 200, bodyText := "",
    bodyJson := Except.ok (Json.obj [("choices", Json.arr [])]) }

/-- A rejected request: status 400 and a plain-text diagnostic body. -/
def send400 : RequestBody → HttpResponse := fun _ =>
  { status := 400, bodyText := "rate limited",
    bodyJson := Except.error "error decoding response body" }

/-! ## Inversion of the success path -/

lemma handle_response_ok_inv {model_name : String} {now : Int}
    {resp : HttpResponse} {msg : Message} {pu : ProviderUsage}
    (h : handle_response model_name now resp = CompleteResult.ok msg pu) :
    msg.role = Role.assistant ∧ pu.model = model_name ∧
      ∃ j chat c cs, resp.bodyJson = Except.ok j ∧
        deserChatResponse j = Except.ok chat ∧ chat.choices = c :: cs ∧
        msg.content = [MessageContent.text c.message.content] := by
  unfold handle_response at h
  split at h
  · split at h
    · exact CompleteResult.noConfusion h
    · rename_i j hj
      split at h
      · exact CompleteResult.noConfusion h
      · rename_i chat hchat
        split at h
        · exact CompleteResult.noConfusion h
        · rename_i c cs hchoices
          cases h
          exact ⟨rfl, rfl, j, chat, c, cs, hj, hchat, hchoices, rfl⟩
  · exact CompleteResult.noConfusion h

lemma complete_ok_inv {api_key model_name system : String}
    {messages : List Message} {now : Int} {send : RequestBody → HttpResponse}
    {msg : Message} {pu : ProviderUsage}
    (h : complete api_key model_name system messages now send
        = CompleteResult.ok msg pu) :
    msg.role = Role.assistant ∧ pu.model = model_name ∧
      ∃ j chat c cs,
        (send ⟨model_name, buildApiMessages system messages⟩).bodyJson
            = Except.ok j ∧
        deserChatResponse j = Except.ok chat ∧ chat.choices = c :: cs ∧
        msg.content = [MessageContent.text c.message.content] := by
  unfold complete at h
  split at h
  · exact CompleteResult.noConfusion h
  · exact handle_response_ok_inv h

/-! ## Claims on the response path -/

/-- Claim C1 (amended): the model name in the returned `ProviderUsage` always
equals the originally requested model name; any model name reported by the
response body is ignored (the deserialized shape has no model field), so the
fallback-to-requested-name behaviour holds for every response, not only those
omitting a model name. -/
theorem claim_c1_amended (api_key model_name system : String)
    (messages : List Message) (now : Int) (send : RequestBody → HttpResponse)
    (msg : Message) (pu : ProviderUsage)
    (h : complete api_key model_name system messages now send
        = CompleteResult.ok msg pu) :
    pu.model = model_name :=
  (complete_ok_inv h).2.1

/-- Witness for the amended C1 at a concrete successful call. -/
theorem claim_c1_witness :
    (ProviderUsage.new "m1" Usage.empty).model = "m1" :=
  claim_c1_amended "k" "m1" "" [] 0 sendHello
    { role := Role.assistant, created := 0,
      content := [MessageContent.text "hello"] }
    (ProviderUsage.new "m1" Usage.empty) rfl

/-- Counterexample to C1 as stated: a response reporting model "m2" for a
request of "m1" yields a `ProviderUsage` carrying "m1", not "m2". -/
theorem claim_c1_counterexample :
    complete "k" "m1" "" [] 0 sendModelM2
        = CompleteResult.ok
            { role := Role.assistant, created := 0,
              content := [MessageContent.text "hi"] }
            (ProviderUsage.new "m1" Usage.empty) ∧
      ("m1" : String) ≠ "m2" :=
  ⟨rfl, by decide⟩

/-- Claim C2 (amended): when the usage object carries all three counters, they
are converted as-is, each wrapped in `Some`. -/
theorem claim_c2_amended (api_key model_name system : String)
    (messages : List Message) (now : Int) (send : RequestBody → HttpResponse)
    (hs : List (String × String))
    (hh : create_headers api_key = Except.ok hs)
    (resp : HttpResponse)
    (hresp : send ⟨model_name, buildApiMessages system messages⟩ = resp)
    (hstatus : statusIsSuccess resp.status = true)
    (j : Json) (hjson : resp.bodyJson = Except.ok j)
    (c : Choice) (cs : List Choice) (au : ApiUsage)
    (hparse : deserChatResponse j = Except.ok ⟨c :: cs, some au⟩) :
    complete api_key model_name system messages now send
      = CompleteResult.ok
          { role := Role.assistant, created := now,
            content := [MessageContent.mkText c.message.content] }
          (ProviderUsage.new model_name
            (Usage.new (some au.prompt_tokens) (some au.completion_tokens)
              (some au.total_tokens))) := by
  simp [complete, hh, hresp, handle_response, hstatus, hjson, hparse, usageOf]

/-- Witness for the amended C2 at a concrete complete usage object. -/
theorem claim_c2_witness :
    complete "k" "m" "" [] 0 sendFullUsage
      = CompleteResult.ok
          { role := Role.assistant, created := 0,
            content := [MessageContent.mkText "hi"] }
          (ProviderUsage.new "m" (Usage.new (some 3) (some 4) (some 7))) :=
  claim_c2_amended "k" "m" "" [] 0 sendFullUsage
    [("content-type", "application/json"), ("authorization", "Bearer " ++ "k")]
    rfl (sendFullUsage ⟨"m", buildApiMessages "" []⟩) rfl rfl
    (Json.obj
      [("choices", Json.arr [mkChoiceJson "hi"]),
       ("usage", Json.obj
         [("prompt_tokens", Json.num 3), ("completion_tokens", Json.num 4),
          ("total_tokens", Json.num 7)])])
    rfl ⟨⟨"hi"⟩⟩ [] ⟨3, 4, 7⟩ rfl

/-- Counterexample to C2 as stated: a 2xx response whose usage object carries
only `prompt_tokens` makes the whole call fail with `ExecutionError` (the
derived deserializer requires all three fields), instead of preserving the
absent counters as absent. -/
theorem claim_c2_counterexample :
    complete "k" "m" "" [] 0 sendPartialUsage
      = CompleteResult.err
          (ProviderError.ExecutionError "missing field completion_tokens") :=
  rfl

/-- Claim C3: a well-typed 2xx body with an empty `choices` array passes
deserialization, and `complete` then hits the out-of-bounds `choices[0]`
access — a panic, not a returned `ProviderError`. -/
theorem claim_c3 :
    deserChatResponse (Json.obj [("choices", Json.arr [])])
        = Except.ok ⟨[], none⟩ ∧
      complete "k" "m" "" [] 0 sendEmptyChoices
        = CompleteResult.panicked
            "index out of bounds: the len is 0 but the index is 0" :=
  ⟨rfl, rfl⟩

/-- Claim C4: a 2xx response whose body is well-formed (at least one choice)
but lacks a usage field yields success with the default empty `Usage`. -/
theorem claim_c4 (api_key model_name system : String)
    (messages : List Message) (now : Int) (send : RequestBody → HttpResponse)
    (hs : List (String × String))
    (hh : create_headers api_key = Except.ok hs)
    (resp : HttpResponse)
    (hresp : send ⟨model_name, buildApiMessages system messages⟩ = resp)
    (hstatus : statusIsSuccess resp.status = true)
    (j : Json) (hjson : resp.bodyJson = Except.ok j)
    (c : Choice) (cs : List Choice)
    (hparse : deserChatResponse j = Except.ok ⟨c :: cs, none⟩) :
    complete api_key model_name system messages now send
      = CompleteResult.ok
          { role := Role.assistant, created := now,
            content := [MessageContent.mkText c.message.content] }
          (ProviderUsage.new model_name Usage.empty) := by
  simp [complete, hh, hresp, handle_response, hstatus, hjson, hparse, usageOf]

/-- Witness for C4 at a concrete usage-free 2xx response. -/
theorem claim_c4_witness :
    complete "k" "gpt-4o" "" [] 0 sendHello
      = CompleteResult.ok
          { role := Role.assistant, created := 0,
            content := [MessageContent.mkText "hello"] }
          (ProviderUsage.new "gpt-4o" Usage.empty) :=
  claim_c4 "k" "gpt-4o" "" [] 0 sendHello
    [("content-type", "application/json"), ("authorization", "Bearer " ++ "k")]
    rfl (sendHello ⟨"gpt-4o", buildApiMessages "" []⟩) rfl rfl
    (Json.obj [("choices", Json.arr [mkChoiceJson "hello"])])
    rfl ⟨⟨"hello"⟩⟩ [] rfl

/-- Claim C5: once headers are built, any non-2xx response makes `complete`
fail with `RequestFailed` carrying the response body text verbatim. -/
theorem claim_c5 (api_key model_name system : String)
    (messages : List Message) (now : Int) (send : RequestBody → HttpResponse)
    (hs : List (String × String))
    (hh : create_headers api_key = Except.ok hs)
    (resp : HttpResponse)
    (hresp : send ⟨model_name, buildApiMessages system messages⟩ = resp)
    (hstatus : statusIsSuccess resp.status = false) :
    complete api_key model_name system messages now send
      = CompleteResult.err (ProviderError.RequestFailed resp.bodyText) := by
  simp [complete, hh, hresp, handle_response, hstatus]

/-- Witness for C5: status 400 with body "rate limited" yields exactly
`RequestFailed "rate limited"`. -/
theorem claim_c5_witness :
    complete "k" "gpt-4o" "" [] 0 send400
      = CompleteResult.err (ProviderError.RequestFailed "rate limited") :=
  claim_c5 "k" "gpt-4o" "" [] 0 send400
    [("content-type", "application/json"), ("authorization", "Bearer " ++ "k")]
    rfl (send400 ⟨"gpt-4o", buildApiMessages "" []⟩) rfl rfl

/-- Claim C10 (amended): every successful call returns a message whose role is
`Assistant` and whose single content part is, verbatim, the text of the first
choice of the deserialized response body (so it is non-empty unless the
vendor explicitly returned empty text), and a `ProviderUsage` whose model
name equals the requested model name — hence non-empty exactly when the
requested model name is non-empty. -/
theorem claim_c10_amended (api_key model_name system : String)
    (messages : List Message) (now : Int) (send : RequestBody → HttpResponse)
    (msg : Message) (pu : ProviderUsage)
    (h : complete api_key model_name system messages now send
        = CompleteResult.ok msg pu)
    (hname : model_name ≠ "") :
    msg.role = Role.assistant ∧
      (∃ j chat c cs,
        (send ⟨model_name, buildApiMessages system messages⟩).bodyJson
            = Except.ok j ∧
        deserChatResponse j = Except.ok chat ∧ chat.choices = c :: cs ∧
        msg.content = [MessageContent.text c.message.content]) ∧
      pu.model = model_name ∧ pu.model ≠ "" := by
  obtain ⟨h1, h2, h3⟩ := complete_ok_inv h
  exact ⟨h1, h3, h2, h2 ▸ hname⟩

/-- The reconstructed message of a `sendHello` response at timestamp 0. -/
def helloMsg : Message :=
  { role := Role.assistant, created := 0,
    content := [MessageContent.text "hello"] }

/-- Witness for the amended C10 at a concrete successful call. -/
theorem claim_c10_witness :
    helloMsg.role = Role.assistant ∧
      (∃ j chat c cs,
        (sendHello ⟨"gpt-4o", buildApiMessages "" []⟩).bodyJson = Except.ok j ∧
        deserChatResponse j = Except.ok chat ∧ chat.choices = c :: cs ∧
        helloMsg.content = [MessageContent.text c.message.content]) ∧
      (ProviderUsage.new "gpt-4o" Usage.empty).model = "gpt-4o" ∧
      (ProviderUsage.new "gpt-4o" Usage.empty).model ≠ "" :=
  claim_c10_amended "k" "gpt-4o" "" [] 0 sendHello helloMsg
    (ProviderUsage.new "gpt-4o" Usage.empty) rfl (by decide)

/-- Counterexample to C10 as stated: when the requested model name is the
empty string, a successful call returns a `ProviderUsage` whose model name is
the empty string. -/
theorem claim_c10_counterexample :
    complete "k" "" "" [] 0 sendHello
        = CompleteResult.ok
            { role := Role.assistant, created := 0,
              content := [MessageContent.text "hello"] }
            (ProviderUsage.new "" Usage.empty) ∧
      (ProviderUsage.new "" Usage.empty).model = "" :=
  ⟨rfl, rfl⟩

end Omg
